import Mathlib

/-!
Verification development for the ya-comiste SDUI core: the tagged
Component union (`src/rust/crates/sdui/src/sdui_component.rs`), the
entrypoint-to-sections resolution contract, and the GraphQL resolvers
(`src/rust/server/src/sdui/graphql_schema.rs`).
-/

namespace YaComiste

/-- Structured serialized values, standing in for serde_json-style content
blocks: strings, booleans, null, arrays, and objects (ordered field lists). -/
inductive Value where
  | str : String → Value
  | bool : Bool → Value
  | null : Value
  | arr : List Value → Value
  | obj : List (String × Value) → Value
deriving Repr

/-- Errors surfaced by component decoding. `UnknownComponentKind` carries the
unrecognized discriminator tag; `MissingField` and `MalformedField` carry the
kind tag and the offending field name. -/
inductive DecodeError where
  | UnknownComponentKind : String → DecodeError
  | MissingField : String → String → DecodeError
  | MalformedField : String → String → DecodeError
deriving Repr, DecidableEq

/-- Looks up a field by name in an object's field list (first match wins). -/
def getField (fields : List (String × Value)) (name : String) : Option Value :=
  match fields with
  | [] => none
  | (k, v) :: rest => if k = name then some v else getField rest name

/-- Modelled from the spec: `src/rust/crates/sdui/src/sdui_card_component.rs`
is not under src/; per §3/§4.1 each payload is a record of kind-specific
fields with its own structural validation. -/
structure SDUICardComponent where
  title : String
deriving Repr, DecidableEq

/-- Modelled from the spec: `src/rust/crates/sdui/src/sdui_description_component.rs`
is not under src/; per §3/§4.1 each payload is a record of kind-specific
fields with its own structural validation. -/
structure SDUIDescriptionComponent where
  text : String
deriving Repr, DecidableEq

/-- Modelled from the spec: `src/rust/crates/sdui/src/sdui_jumbotron_component.rs`
is not under src/; per §3/§4.1 each payload is a record of kind-specific
fields with its own structural validation. -/
structure SDUIJumbotronComponent where
  title : String
  subtitle : String
deriving Repr, DecidableEq

/-- Modelled from the spec: `src/rust/crates/sdui/src/sdui_scrollview_horizontal_component.rs`
is not under src/; per §3/§4.1 each payload is a record of kind-specific
fields with its own structural validation. -/
structure SDUIScrollViewHorizontalComponent where
  layout_hint : String
deriving Repr, DecidableEq

/-- The closed Component union, from
`src/rust/crates/sdui/src/sdui_component.rs`: exactly the four compiled-in
variants, each holding its payload type. -/
inductive SDUIComponent where
  | SDUICardComponent : SDUICardComponent → SDUIComponent
  | SDUIDescriptionComponent : SDUIDescriptionComponent → SDUIComponent
  | SDUIJumbotronComponent : SDUIJumbotronComponent → SDUIComponent
  | SDUIScrollViewHorizontalComponent : SDUIScrollViewHorizontalComponent → SDUIComponent
deriving Repr, DecidableEq

/-- The serde field name carrying the discriminator, from the
`#[serde(tag = "_serde_union_tag", ...)]` attribute in the source. -/
def serdeUnionTagField : String := "_serde_union_tag"

/-- The serde field name carrying the payload content, from the
`#[serde(..., content = "_serde_union_content")]` attribute in the source. -/
def serdeUnionContentField : String := "_serde_union_content"

/-- Discriminator tag of each variant: serde's adjacently-tagged
representation uses the Rust variant name as the tag value. -/
def SDUIComponent.tag : SDUIComponent → String
  | .SDUICardComponent _ => "SDUICardComponent"
  | .SDUIDescriptionComponent _ => "SDUIDescriptionComponent"
  | .SDUIJumbotronComponent _ => "SDUIJumbotronComponent"
  | .SDUIScrollViewHorizontalComponent _ => "SDUIScrollViewHorizontalComponent"

/-- Serializes a card payload as an object of its fields. -/
def SDUICardComponent.encodeContent (c : SDUICardComponent) : Value :=
  .obj [("title", .str c.title)]

/-- Structural validation and decoding of a card payload: the required field
must be present and be a string, else a `DecodeError` naming kind and field. -/
def SDUICardComponent.decodeContent (v : Value) : Except DecodeError SDUICardComponent :=
  match v with
  | .obj fields =>
    match getField fields "title" with
    | some (.str t) => .ok { title := t }
    | some _ => .error (.MalformedField "SDUICardComponent" "title")
    | none => .error (.MissingField "SDUICardComponent" "title")
  | _ => .error (.MalformedField "SDUICardComponent" "<content>")

/-- Serializes a description payload as an object of its fields. -/
def SDUIDescriptionComponent.encodeContent (c : SDUIDescriptionComponent) : Value :=
  .obj [("text", .str c.text)]

/-- Structural validation and decoding of a description payload. -/
def SDUIDescriptionComponent.decodeContent (v : Value) :
    Except DecodeError SDUIDescriptionComponent :=
  match v with
  | .obj fields =>
    match getField fields "text" with
    | some (.str t) => .ok { text := t }
    | some _ => .error (.MalformedField "SDUIDescriptionComponent" "text")
    | none => .error (.MissingField "SDUIDescriptionComponent" "text")
  | _ => .error (.MalformedField "SDUIDescriptionComponent" "<content>")

/-- Serializes a jumbotron payload as an object of its fields. -/
def SDUIJumbotronComponent.encodeContent (c : SDUIJumbotronComponent) : Value :=
  .obj [("title", .str c.title), ("subtitle", .str c.subtitle)]

/-- Structural validation and decoding of a jumbotron payload. -/
def SDUIJumbotronComponent.decodeContent (v : Value) :
    Except DecodeError SDUIJumbotronComponent :=
  match v with
  | .obj fields =>
    match getField fields "title", getField fields "subtitle" with
    | some (.str t), some (.str s) => .ok { title := t, subtitle := s }
    | none, _ => .error (.MissingField "SDUIJumbotronComponent" "title")
    | _, none => .error (.MissingField "SDUIJumbotronComponent" "subtitle")
    | some _, _ => .error (.MalformedField "SDUIJumbotronComponent" "title")
  | _ => .error (.MalformedField "SDUIJumbotronComponent" "<content>")

/-- Serializes a horizontal scroll view payload as an object of its fields. -/
def SDUIScrollViewHorizontalComponent.encodeContent
    (c : SDUIScrollViewHorizontalComponent) : Value :=
  .obj [("layout_hint", .str c.layout_hint)]

/-- Structural validation and decoding of a horizontal scroll view payload. -/
def SDUIScrollViewHorizontalComponent.decodeContent (v : Value) :
    Except DecodeError SDUIScrollViewHorizontalComponent :=
  match v with
  | .obj fields =>
    match getField fields "layout_hint" with
    | some (.str t) => .ok { layout_hint := t }
    | some _ => .error (.MalformedField "SDUIScrollViewHorizontalComponent" "layout_hint")
    | none => .error (.MissingField "SDUIScrollViewHorizontalComponent" "layout_hint")
  | _ => .error (.MalformedField "SDUIScrollViewHorizontalComponent" "<content>")

/-- Content block of a component: the active payload's serialized fields. -/
def SDUIComponent.encodeContent : SDUIComponent → Value
  | .SDUICardComponent c => c.encodeContent
  | .SDUIDescriptionComponent c => c.encodeContent
  | .SDUIJumbotronComponent c => c.encodeContent
  | .SDUIScrollViewHorizontalComponent c => c.encodeContent

/-- Tag dispatch of the closed variant table: looks up the discriminator tag
and delegates to that variant's payload decoder; an absent tag fails with
`UnknownComponentKind` (serde's adjacently-tagged deserialization for the
enum in `sdui_component.rs`). -/
def decodeComponent (tag : String) (content : Value) : Except DecodeError SDUIComponent :=
  match tag with
  | "SDUICardComponent" =>
    (SDUICardComponent.decodeContent content).map SDUIComponent.SDUICardComponent
  | "SDUIDescriptionComponent" =>
    (SDUIDescriptionComponent.decodeContent content).map SDUIComponent.SDUIDescriptionComponent
  | "SDUIJumbotronComponent" =>
    (SDUIJumbotronComponent.decodeContent content).map SDUIComponent.SDUIJumbotronComponent
  | "SDUIScrollViewHorizontalComponent" =>
    (SDUIScrollViewHorizontalComponent.decodeContent content).map
      SDUIComponent.SDUIScrollViewHorizontalComponent
  | other => .error (.UnknownComponentKind other)

/-- Adjacently-tagged external form, per the serde attribute in the source:
an object holding exactly the discriminator field and the content field. -/
def SDUIComponent.encode (c : SDUIComponent) : Value :=
  .obj [(serdeUnionTagField, .str c.tag), (serdeUnionContentField, c.encodeContent)]

/-- Deserialization of the adjacently-tagged external form: reads the
discriminator and content fields, then dispatches on the tag. -/
def SDUIComponent.decode (v : Value) : Except DecodeError SDUIComponent :=
  match v with
  | .obj fields =>
    match getField fields serdeUnionTagField, getField fields serdeUnionContentField with
    | some (.str tag), some content => decodeComponent tag content
    | none, _ => .error (.MissingField "SDUIComponent" serdeUnionTagField)
    | _, none => .error (.MissingField "SDUIComponent" serdeUnionContentField)
    | some _, _ => .error (.MalformedField "SDUIComponent" serdeUnionTagField)
  | _ => .error (.MalformedField "SDUIComponent" "<envelope>")

/-- Modelled from the spec: `describe_schema()` of §4.2 is produced by the
`GraphQLUnion` derive, whose code is not under src/; it exposes the union as
one named object shape per variant, so its variant-name set is the list of
the enum's compiled-in variant names. -/
def describe_schema : List String :=
  ["SDUICardComponent", "SDUIDescriptionComponent", "SDUIJumbotronComponent",
   "SDUIScrollViewHorizontalComponent"]

/-- Identity of the requesting user, from `crate::auth::users::User` as
matched exhaustively in `whoami` (`graphql_schema.rs`): three variants, each
carrying a user exposing an `id()`. -/
inductive User where
  | AuthorizedUser : String → User
  | AnonymousUser : String → User
  | UnauthorizedUser : String → User
deriving Repr, DecidableEq

/-- Identifier carried by every identity variant (`user.id()` in the source). -/
def User.id : User → String
  | .AuthorizedUser i => i
  | .AnonymousUser i => i
  | .UnauthorizedUser i => i

/-- Modelled from the spec: visibility rules of §4.4 step 4 — a record is
either public or restricted to authorized identities. -/
inductive VisibilityRule where
  | publicRule : VisibilityRule
  | authorizedOnly : VisibilityRule
deriving Repr, DecidableEq

/-- Modelled from the spec: the storage collaborator's record shape of §6,
`RawRecord = {id, discriminator_tag, content, visibility_rule}`. -/
structure RawRecord where
  id : String
  discriminator_tag : String
  content : Value
  visibility_rule : VisibilityRule
deriving Repr

/-- Modelled from the spec: opaque storage collaborator failure (§6). -/
structure StorageError where
  message : String
deriving Repr, DecidableEq

/-- Modelled from the spec: a Section (§3) wraps one Component plus
section-level metadata (its identifier); ordering is implicit from sequence
order. The Rust `SDUISection` type is not under src/. -/
structure SDUISection where
  id : String
  component : SDUIComponent
deriving Repr, DecidableEq

/-- Modelled from the spec: §4.3 — a section decode failure propagates the
union's `DecodeError` annotated with the section's own identifier. -/
structure SectionDecodeError where
  section_id : String
  cause : DecodeError
deriving Repr, DecidableEq

/-- Modelled from the spec: `build_section` (§4.3) — decodes the embedded
tag/content via the Component union and attaches the section metadata
untouched; failure carries the originating `DecodeError` plus section id. -/
def build_section (r : RawRecord) : Except SectionDecodeError SDUISection :=
  match decodeComponent r.discriminator_tag r.content with
  | .ok c => .ok { id := r.id, component := c }
  | .error e => .error { section_id := r.id, cause := e }

/-- Modelled from the spec: the resolution error taxonomy of §4.4/§7 —
exactly `Storage`, `Decode` (wrapping the originating decode failure), and
`InvalidKey`. -/
inductive ResolutionError where
  | Storage : StorageError → ResolutionError
  | Decode : SectionDecodeError → ResolutionError
  | InvalidKey : ResolutionError
deriving Repr, DecidableEq

/-- Modelled from the spec: the visibility predicate of §4.4 step 4 —
authorized-only records are hidden from anonymous/unauthorized identities;
public records are visible to everyone. -/
def visibleTo (u : User) (r : RawRecord) : Bool :=
  match r.visibility_rule with
  | .publicRule => true
  | .authorizedOnly =>
    match u with
    | .AuthorizedUser _ => true
    | .AnonymousUser _ => false
    | .UnauthorizedUser _ => false

/-- Decodes each record in order via `build_section`, failing fast on the
first decode failure (§4.4 step 5). -/
def build_sections (records : List RawRecord) :
    Except SectionDecodeError (List SDUISection) :=
  match records with
  | [] => .ok []
  | r :: rest =>
    match build_section r with
    | .error e => .error e
    | .ok s =>
      match build_sections rest with
      | .error e => .error e
      | .ok ss => .ok (s :: ss)

/-- A storage collaborator: `fetch_section_records(entrypoint_key, identity)`
returns the persisted records in persisted order, or a `StorageError` (§6). -/
def Storage : Type := String → User → Except StorageError (List RawRecord)

/-- Modelled from the spec: `resolve_sections` (§4.4) — the body of
`get_all_sections_for_entrypoint_key`, which is not under src/. Validates the
key, fetches records, filters by visibility preserving relative order, and
decodes each remaining record fail-fast. -/
def resolve_sections (storage : Storage) (identity : User) (entrypoint_key : String) :
    Except ResolutionError (List SDUISection) :=
  if entrypoint_key = "" then .error .InvalidKey
  else
    match storage entrypoint_key identity with
    | .error e => .error (.Storage e)
    | .ok records =>
      match build_sections (records.filter (visibleTo identity)) with
      | .error e => .error (.Decode e)
      | .ok sections => .ok sections

/-- Transport-level field error, standing in for `juniper::FieldError`: the
query layer maps each typed core error to one of these. -/
structure FieldError where
  message : String
deriving Repr, DecidableEq

/-- Message rendering for each resolution error variant, mirroring the
per-variant `Err` arms in `mobile_entrypoint_sections`. -/
def ResolutionError.toFieldError : ResolutionError → FieldError
  | .Storage e => { message := e.message }
  | .Decode e => { message := e.section_id ++ ": decode failure" }
  | .InvalidKey => { message := "invalid entrypoint key" }

/-- The query resolver `mobile_entrypoint_sections` from `graphql_schema.rs`:
passes a successful resolution through unchanged (`Ok(s) => Ok(s)`) and maps
each error variant to a transport field error. -/
def mobile_entrypoint_sections (storage : Storage) (user : User) (key : String) :
    Except FieldError (List SDUISection) :=
  match resolve_sections storage user key with
  | .ok s => .ok s
  | .error e => .error e.toFieldError

/-- The `WhoamiPayload` GraphQL object from `graphql_schema.rs`: both fields
are optional in the schema. -/
structure WhoamiPayload where
  id : Option String
  human_readable_type : Option String
deriving Repr, DecidableEq

/-- The `whoami` query resolver from `graphql_schema.rs`: matches the three
identity variants exhaustively, always filling both optional fields. -/
def whoami (user : User) : WhoamiPayload :=
  match user with
  | .AuthorizedUser u =>
    { id := some (User.AuthorizedUser u).id,
      human_readable_type := some "authorized user" }
  | .AnonymousUser u =>
    { id := some (User.AnonymousUser u).id,
      human_readable_type := some "anonymous user" }
  | .UnauthorizedUser u =>
    { id := some (User.UnauthorizedUser u).id,
      human_readable_type := some "unauthorized (but not anonymous) user" }

/-- Opaque failure of the external authentication collaborator
(`crate::auth::authorize`), which is outside this core. -/
structure AuthError where
  message : String
deriving Repr, DecidableEq

/-- The `AuthorizeMobilePayload` GraphQL object from `graphql_schema.rs`. -/
structure AuthorizeMobilePayload where
  success : Bool
  session_token : Option String
deriving Repr, DecidableEq

/-- The `authorize_mobile` mutation resolver from `graphql_schema.rs`,
parameterized by the outcome of the external `crate::auth::authorize` call:
on success it returns `success = true` with the token, on failure it logs and
returns `Ok` with `success = false` and no token — never a field error. -/
def authorize_mobile (authResult : Except AuthError String) :
    Except FieldError AuthorizeMobilePayload :=
  match authResult with
  | .ok session_token => .ok { success := true, session_token := some session_token }
  | .error _ => .ok { success := false, session_token := none }


/-- Field names of an object value, in order; none for non-objects. -/
def Value.fieldNames : Value → Option (List String)
  | .obj fields => some (fields.map Prod.fst)
  | _ => none

/-- Well-formed card content used by the concrete witnesses. -/
def cardContent (t : String) : Value := .obj [("title", .str t)]

/-- Concrete persisted records for the witnesses: three public, decodable
sections A, B, C. -/
def recA : RawRecord :=
  { id := "A", discriminator_tag := "SDUICardComponent", content := cardContent "a",
    visibility_rule := .publicRule }

def recB : RawRecord :=
  { id := "B", discriminator_tag := "SDUICardComponent", content := cardContent "b",
    visibility_rule := .publicRule }

def recC : RawRecord :=
  { id := "C", discriminator_tag := "SDUICardComponent", content := cardContent "c",
    visibility_rule := .publicRule }

/-- A storage collaborator holding records A, B, C under the key home. -/
def sampleStorage : Storage := fun key _ =>
  if key = "home" then .ok [recA, recB, recC] else .ok []

/-- A malformed persisted record: its discriminator tag is outside the
closed variant table. -/
def recBad : RawRecord :=
  { id := "B", discriminator_tag := "__nonexistent__", content := .null,
    visibility_rule := .publicRule }

/-- A storage collaborator whose middle record is malformed. -/
def badStorage : Storage := fun _ _ => .ok [recA, recBad, recC]

/-- The section a well-formed sample record decodes to. -/
def sampleSection (r : RawRecord) : SDUISection :=
  match build_section r with
  | .ok s => s
  | .error _ => { id := "", component := .SDUICardComponent { title := "" } }

/-- Decoding a list of records that all decode succeeds with the in-order
image, with no reordering and no deduplication. -/
theorem build_sections_map (f : RawRecord → SDUISection) :
    ∀ l : List RawRecord, (∀ r ∈ l, build_section r = .ok (f r)) →
      build_sections l = .ok (l.map f) := by
  intro l
  induction l with
  | nil => intro _; rfl
  | cons x xs ih =>
    intro h
    have hx := h x (List.mem_cons_self x xs)
    have hxs := ih (fun r hr => h r (List.mem_cons_of_mem x hr))
    simp [build_sections, hx, hxs]

/-- If some record of the list fails to decode, the whole traversal fails
with the decode failure of some record of the list. -/
theorem build_sections_error :
    ∀ (l : List RawRecord) (r : RawRecord) (e : SectionDecodeError),
      r ∈ l → build_section r = .error e →
      ∃ e2 r2, r2 ∈ l ∧ build_section r2 = .error e2 ∧
        build_sections l = .error e2 := by
  intro l
  induction l with
  | nil => intro r e hmem; cases hmem
  | cons x xs ih =>
    intro r e hmem hfail
    cases hx : build_section x with
    | error e0 =>
      exact ⟨e0, x, List.mem_cons_self x xs, hx, by simp [build_sections, hx]⟩
    | ok s =>
      have hr2 : r ∈ xs := by
        cases List.mem_cons.mp hmem with
        | inl heq => rw [heq] at hfail; rw [hfail] at hx; cases hx
        | inr h => exact h
      obtain ⟨e2, r2, hmem2, herr2, hbs2⟩ := ih r e hr2 hfail
      exact ⟨e2, r2, List.mem_cons_of_mem x hmem2, herr2, by simp [build_sections, hx, hbs2]⟩

/-- C1: decoding the adjacently-tagged encoding of any constructible
Component value yields that value back. -/
theorem decode_encode_roundtrip (c : SDUIComponent) :
    SDUIComponent.decode c.encode = .ok c := by
  cases c <;> rfl

/-- C2: a discriminator tag outside the closed variant table fails with
`UnknownComponentKind`, for any content, both at the dispatch table and for
the full adjacently-tagged envelope. -/
theorem decode_unknown_tag (tag : String) (h : tag ∉ describe_schema) (content : Value) :
    decodeComponent tag content = .error (.UnknownComponentKind tag) ∧
    SDUIComponent.decode
        (.obj [(serdeUnionTagField, .str tag), (serdeUnionContentField, content)]) =
      .error (.UnknownComponentKind tag) := by
  simp [describe_schema] at h
  obtain ⟨h1, h2, h3, h4⟩ := h
  have hd : decodeComponent tag content = .error (.UnknownComponentKind tag) := by
    unfold decodeComponent
    split <;> simp_all
  exact ⟨hd, by simp [SDUIComponent.decode, getField, serdeUnionTagField, serdeUnionContentField, hd]⟩

theorem decode_unknown_tag_witness :
    "__nonexistent__" ∉ describe_schema ∧
    decodeComponent "__nonexistent__" .null =
      .error (.UnknownComponentKind "__nonexistent__") :=
  ⟨by decide, (decode_unknown_tag "__nonexistent__" (by decide) .null).1⟩

/-- C3: the external serialized shape is adjacently tagged — an object with
exactly the discriminator field and the content field, in that order. -/
theorem encode_adjacent_shape (c : SDUIComponent) :
    (c.encode).fieldNames = some [serdeUnionTagField, serdeUnionContentField] ∧
    ∃ tag content,
      c.encode = .obj [(serdeUnionTagField, .str tag), (serdeUnionContentField, content)] := by
  cases c <;> exact ⟨rfl, _, _, rfl⟩

/-- C4: the variant names exposed by the schema description are without
duplicates and coincide exactly with the tags reachable from constructible
Component values, and every component's tag appears exactly once. -/
theorem schema_closed_set :
    describe_schema.Nodup ∧
    (∀ t, t ∈ describe_schema ↔ ∃ c : SDUIComponent, c.tag = t) ∧
    (∀ c : SDUIComponent, describe_schema.count c.tag = 1) := by
  refine ⟨by decide, fun t => ⟨fun ht => ?_, fun ⟨c, hc⟩ => ?_⟩, fun c => ?_⟩
  · simp [describe_schema] at ht
    rcases ht with h | h | h | h
    · exact ⟨.SDUICardComponent ⟨""⟩, by simp [SDUIComponent.tag, h]⟩
    · exact ⟨.SDUIDescriptionComponent ⟨""⟩, by simp [SDUIComponent.tag, h]⟩
    · exact ⟨.SDUIJumbotronComponent ⟨"", ""⟩, by simp [SDUIComponent.tag, h]⟩
    · exact ⟨.SDUIScrollViewHorizontalComponent ⟨""⟩, by simp [SDUIComponent.tag, h]⟩
  · cases c <;> simp_all [SDUIComponent.tag, describe_schema]
  · cases c <;> rfl



/-- C5: with no visibility restrictions, resolution returns the decoded
sections in exactly the persisted order, and the query layer passes the
resolved sequence through unchanged. -/
theorem order_preservation (storage : Storage) (u : User) (key : String)
    (records : List RawRecord) (f : RawRecord → SDUISection)
    (hk : key ≠ "") (hs : storage key u = .ok records)
    (hvis : ∀ r ∈ records, r.visibility_rule = .publicRule)
    (hdec : ∀ r ∈ records, build_section r = .ok (f r)) :
    resolve_sections storage u key = .ok (records.map f) ∧
    mobile_entrypoint_sections storage u key = .ok (records.map f) := by
  have hfilter : records.filter (visibleTo u) = records :=
    List.filter_eq_self.mpr (by intro r hr; simp [visibleTo, hvis r hr])
  have hbs := build_sections_map f records hdec
  constructor
  · simp [resolve_sections, hk, hs, hfilter, hbs]
  · simp [mobile_entrypoint_sections, resolve_sections, hk, hs, hfilter, hbs]

theorem order_preservation_witness :
    resolve_sections sampleStorage (User.AnonymousUser "u") "home" =
      .ok [sampleSection recA, sampleSection recB, sampleSection recC] :=
  (order_preservation sampleStorage (User.AnonymousUser "u") "home"
    [recA, recB, recC] sampleSection (by decide) rfl (by decide)
    (by intro r hr; simp at hr; rcases hr with rfl | rfl | rfl <;> rfl)).1

/-- C6 counterexample: for the empty entrypoint key the fetch would yield
zero records, yet resolution returns `InvalidKey` instead of an empty
sequence. -/
theorem empty_key_not_empty_sequence :
    (fun (_ : String) (_ : User) =>
        (.ok [] : Except StorageError (List RawRecord))) "" (User.AnonymousUser "u") =
      .ok ([] : List RawRecord) ∧
    resolve_sections (fun _ _ => .ok []) (User.AnonymousUser "u") "" =
      .error .InvalidKey :=
  ⟨rfl, rfl⟩

/-- C6 (amended): for every non-empty entrypoint key whose fetch yields zero
persisted records, resolution returns an empty sequence, not an error. -/
theorem empty_fetch_ok (storage : Storage) (u : User) (key : String)
    (hk : key ≠ "") (hs : storage key u = .ok []) :
    resolve_sections storage u key = .ok [] := by
  simp [resolve_sections, hk, hs, build_sections]

theorem empty_fetch_ok_witness :
    resolve_sections (fun _ _ => .ok []) (User.AnonymousUser "u") "watchlist" = .ok [] :=
  empty_fetch_ok (fun _ _ => .ok []) (User.AnonymousUser "u") "watchlist" (by decide) rfl

/-- C7: if any visible record fails to decode, the entire resolution fails
with `ResolutionError.Decode` wrapping an originating decode failure, and no
partial sequence is returned by the resolver or the query layer. -/
theorem fail_fast (storage : Storage) (u : User) (key : String)
    (records : List RawRecord) (r : RawRecord) (e : SectionDecodeError)
    (hk : key ≠ "") (hs : storage key u = .ok records)
    (hr : r ∈ records.filter (visibleTo u)) (hfail : build_section r = .error e) :
    ∃ e2 r2, r2 ∈ records.filter (visibleTo u) ∧ build_section r2 = .error e2 ∧
      resolve_sections storage u key = .error (.Decode e2) ∧
      (∀ ss, mobile_entrypoint_sections storage u key ≠ .ok ss) := by
  obtain ⟨e2, r2, hmem2, herr2, hbs2⟩ :=
    build_sections_error (records.filter (visibleTo u)) r e hr hfail
  refine ⟨e2, r2, hmem2, herr2, ?_, ?_⟩
  · simp [resolve_sections, hk, hs, hbs2]
  · intro ss
    simp [mobile_entrypoint_sections, resolve_sections, hk, hs, hbs2]

theorem fail_fast_witness :
    ∃ e2 r2, r2 ∈ [recA, recBad, recC].filter (visibleTo (User.AuthorizedUser "u")) ∧
      build_section r2 = .error e2 ∧
      resolve_sections badStorage (User.AuthorizedUser "u") "home" =
        .error (.Decode e2) ∧
      (∀ ss, mobile_entrypoint_sections badStorage (User.AuthorizedUser "u") "home" ≠ .ok ss) :=
  fail_fast badStorage (User.AuthorizedUser "u") "home" [recA, recBad, recC] recBad
    { section_id := "B", cause := .UnknownComponentKind "__nonexistent__" }
    (by decide) rfl
    (by
      rw [show [recA, recBad, recC].filter (visibleTo (User.AuthorizedUser "u")) =
        [recA, recBad, recC] from rfl]
      exact List.mem_cons_of_mem _ (List.mem_cons_self _ _))
    rfl

/-- C8: the empty key fails with `InvalidKey` before any fetch (for every
storage), the surfaced taxonomy is exactly Storage, Decode, InvalidKey, every
outcome is a sequence or a typed error, and the query layer maps every typed
error rather than swallowing it. -/
theorem error_taxonomy :
    (∀ (storage : Storage) (u : User),
      resolve_sections storage u "" = .error .InvalidKey) ∧
    (∀ e : ResolutionError,
      (∃ s, e = .Storage s) ∨ (∃ d, e = .Decode d) ∨ e = .InvalidKey) ∧
    (∀ (storage : Storage) (u : User) (key : String),
      (∃ ss, resolve_sections storage u key = .ok ss) ∨
        (∃ e, resolve_sections storage u key = .error e)) ∧
    (∀ (storage : Storage) (u : User) (key : String) (e : ResolutionError),
      resolve_sections storage u key = .error e →
        mobile_entrypoint_sections storage u key = .error e.toFieldError) := by
  refine ⟨fun storage u => rfl, fun e => ?_, fun storage u key => ?_, ?_⟩
  · cases e with
    | Storage s => exact .inl ⟨s, rfl⟩
    | Decode d => exact .inr (.inl ⟨d, rfl⟩)
    | InvalidKey => exact .inr (.inr rfl)
  · cases h : resolve_sections storage u key with
    | ok ss => exact .inl ⟨ss, rfl⟩
    | error e => exact .inr ⟨e, rfl⟩
  · intro storage u key e h
    simp [mobile_entrypoint_sections, h]

theorem error_taxonomy_witness :
    resolve_sections sampleStorage (User.AnonymousUser "u") "" = .error .InvalidKey :=
  error_taxonomy.1 sampleStorage (User.AnonymousUser "u")

/-- C9: for every identity variant, `whoami` returns a payload with both
optional fields populated, and the three variants produce pairwise distinct
human-readable type strings. -/
theorem whoami_fields_present :
    (∀ u : User, (whoami u).id = some u.id ∧
      (whoami u).id.isSome = true ∧ (whoami u).human_readable_type.isSome = true) ∧
    (∀ i j : String,
      (whoami (.AuthorizedUser i)).human_readable_type ≠
        (whoami (.AnonymousUser j)).human_readable_type ∧
      (whoami (.AuthorizedUser i)).human_readable_type ≠
        (whoami (.UnauthorizedUser j)).human_readable_type ∧
      (whoami (.AnonymousUser i)).human_readable_type ≠
        (whoami (.UnauthorizedUser j)).human_readable_type) := by
  constructor
  · intro u; cases u <;> simp [whoami, User.id]
  · intro i j
    refine ⟨?_, ?_, ?_⟩ <;> simp [whoami]

/-- C10: `authorize_mobile` never returns a field error — on failure it
returns success = false with no token — and success is true exactly when a
session token is present. -/
theorem authorize_mobile_total :
    (∀ t, authorize_mobile (.ok t) =
      .ok { success := true, session_token := some t }) ∧
    (∀ e, authorize_mobile (.error e) =
      .ok { success := false, session_token := none }) ∧
    (∀ r, ∃ p, authorize_mobile r = .ok p ∧
      (p.success = true ↔ p.session_token.isSome = true)) := by
  refine ⟨fun t => rfl, fun e => rfl, fun r => ?_⟩
  cases r with
  | ok t => exact ⟨_, rfl, by simp⟩
  | error e => exact ⟨_, rfl, by simp⟩

end YaComiste
